import Mathlib

/-!
Shallow embedding of the ticket query layer of `src/database.py`
(`build_where`, `get_ticket_type`, `search_tickets`, `export_tickets`)
over an in-memory ticket table.  Strings are modelled as Lean `String`
(lists of characters); the SQLite `LIKE` operator is modelled by an
executable pattern matcher with `%`/`_` wildcards and ASCII-only case
folding, which is SQLite's default behaviour; `ORDER BY Created DESC`
is modelled as a stable descending sort on the `Created` column in
codepoint order (UTF-8 memcmp order and codepoint order agree), ties
keeping storage row order.
-/

/-- One row of the `tickets` table, with the columns the queries read:
`Number`, `Caller`, `ShortDescription`, `State`, `Created` (all TEXT). -/
structure Row where
  number : String
  caller : String
  shortDescription : String
  state : String
  created : String
deriving DecidableEq, Repr

/-- The `tickets` table: a finite sequence of rows in storage order. -/
abbrev Table := List Row

/-- A ticket record as produced by the Python dicts in `search_tickets`
and `export_tickets`. -/
structure Ticket where
  id : String
  assignee : String
  shortDescription : String
  status : String
  createdAt : String
  type : String
deriving DecidableEq, Repr

/-- The result bundle of `search_tickets`; `stats` models the Python dict
as an association list in insertion order. -/
structure Bundle where
  tickets : List Ticket
  total : Nat
  stats : List (String × Nat)
deriving DecidableEq, Repr

/-- Python `str.strip()`: remove whitespace from both ends. -/
def pyStrip (s : String) : String :=
  ⟨((s.data.dropWhile Char.isWhitespace).reverse.dropWhile Char.isWhitespace).reverse⟩

/-- All suffixes of a character list, longest first (the list itself down
to `[]`). -/
def suffixes : List Char → List (List Char)
  | [] => [[]]
  | c :: cs => (c :: cs) :: suffixes cs

/-- SQLite `LIKE` matching of a whole text against a whole pattern:
`%` matches any sequence (some suffix of the text matches the rest of
the pattern), `_` matches any single character, any other pattern
character matches a text character up to ASCII case (`Char.toLower`
folds exactly the ASCII range, as SQLite does). -/
def likeMatch : List Char → List Char → Bool
  | [], ts => ts.isEmpty
  | p :: pr, ts =>
    if p = '%' then (suffixes ts).any fun s => likeMatch pr s
    else
      match ts with
      | [] => false
      | t :: tr => (if p = '_' then true else p.toLower == t.toLower) && likeMatch pr tr

/-- The `column LIKE '%x%'` test used by `build_where`: the pattern is the
raw user text wrapped in `%`…`%`. -/
def likeContains (needle hay : String) : Bool :=
  likeMatch ('%' :: (needle.data ++ ['%'])) hay.data

/-- `build_where(search, status)`: the WHERE clause together with its bound
parameters, embedded as the list of its conjunct predicates over a row.
The text conjunct `(ShortDescription LIKE ? OR Number LIKE ?)` is added
exactly when the stripped search text is non-empty (Python truthiness of
`search.strip()`); the status conjunct `State LIKE ?` exactly when
`status` is non-empty and not `"All"`.  Parameters are the user text
wrapped in `%`…`%`. -/
def build_where (search status : String) : List (Row → Bool) :=
  (if pyStrip search ≠ "" then
      [fun r => likeContains (pyStrip search) r.shortDescription
                || likeContains (pyStrip search) r.number]
    else [])
  ++ (if status ≠ "" ∧ status ≠ "All" then
      [fun r => likeContains status r.state]
    else [])

/-- The row predicate denoted by the assembled clause: the conjunction of
all conjuncts (`" AND ".join`), and the always-true predicate when the
clause is empty. -/
def buildWherePred (search status : String) (r : Row) : Bool :=
  (build_where search status).all fun c => c r

/-- `get_ticket_type(desc)`: keyword classification over the lowercased
description, first match wins; `litSubstr` models Python's substring
operator `in`. -/
def litSubstr (needle : List Char) : List Char → Bool
  | [] => needle.isEmpty
  | h :: hs => needle.isPrefixOf (h :: hs) || litSubstr needle hs

def get_ticket_type (desc : String) : String :=
  let d := desc.data.map Char.toLower
  if litSubstr "-ap".data d || litSubstr " ap down".data d || litSubstr "down ap".data d then
    "Access Point"
  else if litSubstr "sysmon".data d then
    "Sysmon"
  else if litSubstr "ont".data d || litSubstr "naba".data d then
    "ONT"
  else
    ""

/-- `a ≤ b` on TEXT values in SQLite's default BINARY collation
(memcmp of UTF-8 bytes = codepoint-lexicographic order). -/
def strLe : List Char → List Char → Bool
  | [], _ => true
  | _ :: _, [] => false
  | a :: as, b :: bs => a.toNat < b.toNat || (a.toNat == b.toNat && strLe as bs)

/-- Insert a row into a list already sorted by `Created` descending,
keeping it before the first row whose `Created` is ≤ its own (stable). -/
def insertDesc (r : Row) : List Row → List Row
  | [] => [r]
  | x :: xs => if strLe x.created.data r.created.data then r :: x :: xs else x :: insertDesc r xs

/-- `ORDER BY Created DESC`: stable descending sort on the `Created`
column, ties keeping storage row order. -/
def orderByCreatedDesc : List Row → List Row
  | [] => []
  | x :: xs => insertDesc x (orderByCreatedDesc xs)

/-- Row-to-dict mapping shared by `search_tickets` and `export_tickets`. -/
def toTicket (r : Row) : Ticket :=
  { id := r.number
    assignee := r.caller
    shortDescription := r.shortDescription
    status := r.state
    createdAt := r.created
    type := get_ticket_type r.shortDescription }

/-- `State IN ('Resolved','Closed','Cancelled')` (exact, case-sensitive
TEXT equality, as SQLite `IN` compares). -/
def resolvedCond (s : String) : Bool :=
  s == "Resolved" || s == "Closed" || s == "Cancelled"

/-- `State IN ('Assigned','Work in Progress')`. -/
def inProgressCond (s : String) : Bool :=
  s == "Assigned" || s == "Work in Progress"

/-- `State LIKE 'Pending%'`. -/
def pendingCond (s : String) : Bool :=
  likeMatch "Pending%".data s.data

/-- `search_tickets(search, status, page, page_size=50)`:
clamp the page to ≥ 1, compute the offset, count the filtered table
(`total`), fetch one page of the filtered table ordered by `Created`
descending (`LIMIT page_size OFFSET offset`), map rows to tickets, and
compute the three stats counts by re-running the count with the group
condition ANDed onto the clause. -/
def search_tickets (t : Table) (search status : String) (page : Int)
    (page_size : Nat := 50) : Bundle :=
  let page := max 1 page
  let offset := (page - 1).toNat * page_size
  let p := buildWherePred search status
  let total := List.countP p t
  let rows := ((orderByCreatedDesc (List.filter p t)).drop offset).take page_size
  let tickets := rows.map toTicket
  let resolved := List.countP (fun r => p r && resolvedCond r.state) t
  let inProgress := List.countP (fun r => p r && inProgressCond r.state) t
  let pending := List.countP (fun r => p r && pendingCond r.state) t
  { tickets := tickets
    total := total
    stats := [("total", total), ("resolved", resolved),
              ("inProgress", inProgress), ("pending", pending)] }

/-- `export_tickets(search, status)`: the same filter and ordering as
`search_tickets` but with no limit/offset and no stats. -/
def export_tickets (t : Table) (search status : String) : List Ticket :=
  (orderByCreatedDesc (List.filter (buildWherePred search status) t)).map toTicket

/-- Python `dict` lookup on the stats map (`stats[k]` as an `Option`). -/
def statsGet (stats : List (String × Nat)) (key : String) : Option Nat :=
  match stats with
  | [] => none
  | (k, v) :: rest => if key = k then some v else statsGet rest key

/-- Python `stats.get(key, d)` as used by the caller in `src/main.py`. -/
def statsGetD (stats : List (String × Nat)) (key : String) (d : Nat) : Nat :=
  (statsGet stats key).getD d

/-! ### Spec-side predicates

These definitions follow the words of the specification (not the code);
they are compared with the code's own matching functions in the claim
theorems below. -/

/-- Spec's words: the text occurs in the hay as a case-insensitive
(ASCII) substring. -/
def ciSubstr (needle hay : String) : Bool :=
  litSubstr (needle.data.map Char.toLower) (hay.data.map Char.toLower)

/-- Spec's words: the string begins with the given text, compared
case-insensitively (ASCII). -/
def ciStarts (pre s : String) : Bool :=
  (pre.data.map Char.toLower).isPrefixOf (s.data.map Char.toLower)

/-- Spec's words: the string begins with the given text, literally. -/
def litStarts (pre s : String) : Bool :=
  pre.data.isPrefixOf s.data

/-- Spec's words: status is one of Resolved, Closed, Cancelled. -/
def resolvedSpec (s : String) : Bool :=
  s == "Resolved" || s == "Closed" || s == "Cancelled"

/-- Spec's words: status is one of Assigned, Work in Progress. -/
def inProgressSpec (s : String) : Bool :=
  s == "Assigned" || s == "Work in Progress"

/-- The text contains no SQL `LIKE` wildcard character. -/
def noWild (L : List Char) : Bool :=
  L.all fun c => !(c == '%') && !(c == '_')

/-! ### SQL statement traces

`search_tickets` and `export_tickets` issue only SELECT statements; the
statement type below also has the mutating SQL forms, so that the frame
theorem (the table is unchanged by either call) is a statement about the
trace actually issued, not a tautology of the type. -/

/-- A SQL statement shape against the `tickets` table: the three SELECT
forms this module issues, plus the mutating forms (never issued). -/
inductive Stmt where
  | selectCount (p : Row → Bool)
  | selectPage (p : Row → Bool) (limit offset : Nat)
  | selectAll (p : Row → Bool)
  | insertRow (r : Row)
  | deleteWhere (p : Row → Bool)
  | updateWhere (p : Row → Bool) (f : Row → Row)

/-- The table contents after executing one statement: a SELECT leaves the
table unchanged, INSERT/DELETE/UPDATE modify it. -/
def stmtEffect : Stmt → Table → Table
  | .selectCount _, t => t
  | .selectPage _ _ _, t => t
  | .selectAll _, t => t
  | .insertRow r, t => t ++ [r]
  | .deleteWhere p, t => t.filter fun r => !(p r)
  | .updateWhere p f, t => t.map fun r => if p r then f r else r

/-- The statements `search_tickets(search, status, page, page_size)`
executes, in order: the total count, the page fetch, and the three stats
counts with the group condition ANDed onto the clause. -/
def searchStmts (search status : String) (page : Int) (page_size : Nat) : List Stmt :=
  [Stmt.selectCount (buildWherePred search status),
   Stmt.selectPage (buildWherePred search status) page_size
     ((max 1 page - 1).toNat * page_size),
   Stmt.selectCount (fun r => buildWherePred search status r && resolvedCond r.state),
   Stmt.selectCount (fun r => buildWherePred search status r && inProgressCond r.state),
   Stmt.selectCount (fun r => buildWherePred search status r && pendingCond r.state)]

/-- The single statement `export_tickets(search, status)` executes. -/
def exportStmts (search status : String) : List Stmt :=
  [Stmt.selectAll (buildWherePred search status)]

/-- The table contents after a sequence of statements. -/
def runStmts (t : Table) (l : List Stmt) : Table :=
  l.foldl (fun t s => stmtEffect s t) t

/-! ### Concrete rows used in counterexamples and witnesses -/

/-- Row whose `Number` is matched by the `LIKE` pattern of search text
`x%y` although `x%y` is not a substring of it. -/
def rowXzzy : Row :=
  { number := "xzzy", caller := "", shortDescription := "", state := "New", created := "2024" }

/-- Row whose `Number` is matched by the `LIKE` pattern of search text
`a_c` although `a_c` is not a substring of it. -/
def rowAbc : Row :=
  { number := "abc", caller := "", shortDescription := "def", state := "New", created := "2024" }

/-- Row whose `State` is matched by `LIKE 'Pending%'` although it does not
begin with `Pending` literally. -/
def rowPend : Row :=
  { number := "T9", caller := "", shortDescription := "", state := "pending parts",
    created := "2024" }

/-- Two generic rows with distinct `Created` values, for witnesses. -/
def rowW1 : Row :=
  { number := "W1", caller := "a", shortDescription := "d1", state := "Resolved",
    created := "2024-01-02" }

def rowW2 : Row :=
  { number := "W2", caller := "b", shortDescription := "d2", state := "New",
    created := "2024-01-01" }

/-! ### Helper lemmas -/

theorem isPrefixOf_nil_eq (n : List Char) : n.isPrefixOf ([] : List Char) = n.isEmpty := by
  cases n <;> rfl

theorem nil_mem_suffixes (ts : List Char) : [] ∈ suffixes ts := by
  induction ts with
  | nil => simp [suffixes]
  | cons t tr ih => simp [suffixes, ih]

theorem likeMatch_any_suffix (P ts : List Char) :
    likeMatch ('%' :: P) ts = (suffixes ts).any fun s => likeMatch P s := by
  simp [likeMatch]

theorem likeMatch_pct_nil (ts : List Char) : likeMatch ['%'] ts = true := by
  rw [likeMatch_any_suffix]
  exact List.any_eq_true.mpr ⟨[], nil_mem_suffixes ts, by simp [likeMatch]⟩

theorem likeMatch_literal (L : List Char) (h : noWild L = true) : ∀ ts : List Char,
    likeMatch (L ++ ['%']) ts = (L.map Char.toLower).isPrefixOf (ts.map Char.toLower) := by
  induction L with
  | nil =>
    intro ts
    simp [likeMatch_pct_nil, List.isPrefixOf]
  | cons c L ih =>
    have hc1 : ¬ c = '%' := by
      intro hc
      subst hc
      simp [noWild] at h
    have hc2 : ¬ c = '_' := by
      intro hc
      subst hc
      simp [noWild] at h
    have hL : noWild L = true := by
      simp only [noWild, List.all_cons, Bool.and_eq_true] at h
      exact h.2
    intro ts
    cases ts with
    | nil =>
      simp only [List.cons_append, likeMatch, if_neg hc1, List.map_cons]
      rfl
    | cons t tr =>
      simp only [List.cons_append, likeMatch, if_neg hc1, if_neg hc2, List.map_cons,
        List.isPrefixOf, List.append_eq, Bool.true_and]
      rw [ih hL tr]

theorem likeMatch_substr (L : List Char) (h : noWild L = true) : ∀ ts : List Char,
    likeMatch ('%' :: (L ++ ['%'])) ts
      = litSubstr (L.map Char.toLower) (ts.map Char.toLower) := by
  intro ts
  induction ts with
  | nil =>
    rw [likeMatch_any_suffix]
    simp only [suffixes, List.any_cons, List.any_nil, Bool.or_false, List.map_nil]
    rw [likeMatch_literal L h []]
    simp [litSubstr, isPrefixOf_nil_eq]
  | cons t tr ih =>
    rw [likeMatch_any_suffix] at ih ⊢
    simp only [suffixes, List.any_cons]
    rw [likeMatch_literal L h (t :: tr), ih]
    simp [litSubstr]

theorem length_insertDesc (r : Row) (l : List Row) :
    (insertDesc r l).length = l.length + 1 := by
  induction l with
  | nil => rfl
  | cons x xs ih =>
    simp only [insertDesc]
    split <;> simp [ih]

theorem length_orderByCreatedDesc (l : List Row) :
    (orderByCreatedDesc l).length = l.length := by
  induction l with
  | nil => rfl
  | cons x xs ih => simp [orderByCreatedDesc, length_insertDesc, ih]

theorem countP_and_filter {α : Type} (l : List α) (p c : α → Bool) :
    l.countP (fun a => p a && c a) = (l.filter p).countP c := by
  induction l with
  | nil => rfl
  | cons a l ih =>
    simp only [List.countP_cons, List.filter_cons]
    cases hp : p a <;> cases hc : c a <;> simp [List.countP_cons, hp, hc, ih]

theorem countP_three_le_length {α : Type} (l : List α) (p q r : α → Bool)
    (hpq : ∀ a, (p a && q a) = false) (hpr : ∀ a, (p a && r a) = false)
    (hqr : ∀ a, (q a && r a) = false) :
    l.countP p + l.countP q + l.countP r ≤ l.length := by
  induction l with
  | nil => simp
  | cons a l ih =>
    have h1 := hpq a
    have h2 := hpr a
    have h3 := hqr a
    simp only [List.countP_cons, List.length_cons]
    cases hp : p a <;> cases hq : q a <;> cases hr : r a <;>
      simp_all <;> omega

theorem flatten_chunks {α : Type} (ps : Nat) :
    ∀ (n : Nat) (l : List α), l.length ≤ n * ps →
      ((List.range n).map fun i => (l.drop (i * ps)).take ps).flatten = l := by
  intro n
  induction n with
  | zero =>
    intro l hl
    simp only [Nat.zero_mul, Nat.le_zero] at hl
    simp [List.length_eq_zero.mp hl]
  | succ n ih =>
    intro l hl
    have hlen : (l.drop ps).length ≤ n * ps := by
      simp only [List.length_drop]
      have h2 : l.length ≤ n * ps + ps := by
        calc l.length ≤ (n + 1) * ps := hl
          _ = n * ps + ps := by ring
      omega
    have hstep : ((List.range n).map fun i => ((l.drop ps).drop (i * ps)).take ps).flatten
        = l.drop ps := ih (l.drop ps) hlen
    have hcomp : ((List.range n).map fun i => (l.drop ((i + 1) * ps)).take ps)
        = ((List.range n).map fun i => ((l.drop ps).drop (i * ps)).take ps) := by
      apply List.map_congr_left
      intro i _
      rw [List.drop_drop]
      congr 2
      ring
    rw [List.range_succ_eq_map]
    simp only [List.map_cons, Nat.zero_mul, List.drop_zero, List.flatten_cons, List.map_map]
    have hfun : ((fun i => (l.drop (i * ps)).take ps) ∘ Nat.succ)
        = fun i => (l.drop ((i + 1) * ps)).take ps := by
      funext i
      simp [Function.comp, Nat.succ_eq_add_one]
    rw [hfun, hcomp, hstep, List.take_append_drop]

theorem le_ceil_mul (ps a : Nat) (hps : 0 < ps) : a ≤ ((a + ps - 1) / ps) * ps := by
  have hdm := Nat.div_add_mod (a + ps - 1) ps
  have hmod : (a + ps - 1) % ps < ps := Nat.mod_lt _ hps
  rw [Nat.mul_comm]
  generalize hX : ps * ((a + ps - 1) / ps) = X at hdm ⊢
  omega

theorem mul_lt_of_lt_ceil (ps a k : Nat) (hps : 0 < ps)
    (hk : k < (a + ps - 1) / ps) : k * ps < a := by
  have h2 : (k + 1) * ps ≤ a + ps - 1 :=
    (Nat.le_div_iff_mul_le hps).mp (Nat.succ_le_of_lt hk)
  rw [Nat.succ_mul] at h2
  generalize hX : k * ps = X at h2 ⊢
  omega

theorem total_sorted (t : List Row) (p : Row → Bool) :
    List.countP p t = (orderByCreatedDesc (List.filter p t)).length := by
  rw [length_orderByCreatedDesc, List.countP_eq_length_filter]

/-! ### Field-level reductions of `search_tickets` -/

theorem search_tickets_total (t : Table) (search status : String) (page : Int) (ps : Nat) :
    (search_tickets t search status page ps).total
      = List.countP (buildWherePred search status) t := rfl

theorem search_tickets_tickets (t : Table) (search status : String) (page : Int) (ps : Nat) :
    (search_tickets t search status page ps).tickets
      = (((orderByCreatedDesc (List.filter (buildWherePred search status) t)).drop
            ((max 1 page - 1).toNat * ps)).take ps).map toTicket := rfl

theorem search_tickets_stats (t : Table) (search status : String) (page : Int) (ps : Nat) :
    (search_tickets t search status page ps).stats
      = [("total", List.countP (buildWherePred search status) t),
         ("resolved", List.countP
            (fun r => buildWherePred search status r && resolvedCond r.state) t),
         ("inProgress", List.countP
            (fun r => buildWherePred search status r && inProgressCond r.state) t),
         ("pending", List.countP
            (fun r => buildWherePred search status r && pendingCond r.state) t)] := rfl

/-! ### Claim theorems -/

/-- C1: for every ticket table, search string, status selector, page and
page size, the `total` field returned by `search_tickets` equals the
length of the list returned by `export_tickets` over the same table and
the same filter. -/
theorem C1_total_eq_export_length (t : Table) (search status : String)
    (page : Int) (ps : Nat) :
    (search_tickets t search status page ps).total
      = (export_tickets t search status).length := by
  rw [search_tickets_total, export_tickets, List.length_map]
  exact total_sorted t _

/-- C4: `get_ticket_type` is a pure total function: every description is
mapped to exactly one of "Access Point", "Sysmon", "ONT", "", by
case-insensitive substring matching with first-match-wins precedence:
"Access Point" when the description contains "-ap", " ap down" or
"down ap"; otherwise "Sysmon" on "sysmon"; otherwise "ONT" on "ont" or
"naba"; otherwise "" — so a description containing both "sysmon" and
"-ap" yields "Access Point". -/
theorem C4_classifier_total_precedence (desc : String) :
    (get_ticket_type desc =
      if ciSubstr "-ap" desc || ciSubstr " ap down" desc || ciSubstr "down ap" desc then
        "Access Point"
      else if ciSubstr "sysmon" desc then "Sysmon"
      else if ciSubstr "ont" desc || ciSubstr "naba" desc then "ONT"
      else "")
    ∧ (get_ticket_type desc = "Access Point" ∨ get_ticket_type desc = "Sysmon"
        ∨ get_ticket_type desc = "ONT" ∨ get_ticket_type desc = "") := by
  have hkw : ∀ kw : String, kw.data.map Char.toLower = kw.data →
      ciSubstr kw desc = litSubstr kw.data (desc.data.map Char.toLower) := by
    intro kw h
    rw [ciSubstr, h]
  constructor
  · rw [hkw "-ap" (by decide), hkw " ap down" (by decide), hkw "down ap" (by decide),
      hkw "sysmon" (by decide), hkw "ont" (by decide), hkw "naba" (by decide)]
    rfl
  · simp only [get_ticket_type]
    split
    · exact Or.inl rfl
    · split
      · exact Or.inr (Or.inl rfl)
      · split
        · exact Or.inr (Or.inr (Or.inl rfl))
        · exact Or.inr (Or.inr (Or.inr rfl))

/-- C9: `search_tickets` and `export_tickets` are pure read paths: the
statement traces they execute contain only SELECT statements, so the
table contents after either call equal the table contents before it. -/
theorem C9_read_only (t : Table) (search status : String) (page : Int) (ps : Nat) :
    runStmts t (searchStmts search status page ps) = t
    ∧ runStmts t (exportStmts search status) = t :=
  ⟨rfl, rfl⟩

/-- C10: the stats map returned by `search_tickets` contains exactly the
four keys `total`, `resolved`, `inProgress`, `pending`, in that order; a
`cancelled` key is never present, so the caller's `stats.get("cancelled",
d)` always observes the default `d`. -/
theorem C10_stats_keys (t : Table) (search status : String) (page : Int)
    (ps : Nat) (d : Nat) :
    ((search_tickets t search status page ps).stats.map Prod.fst
        = ["total", "resolved", "inProgress", "pending"])
    ∧ statsGet (search_tickets t search status page ps).stats "cancelled" = none
    ∧ statsGetD (search_tickets t search status page ps).stats "cancelled" d = d := by
  rw [search_tickets_stats]
  refine ⟨rfl, ?_, ?_⟩
  · rw [statsGet, if_neg (by decide), statsGet, if_neg (by decide),
      statsGet, if_neg (by decide), statsGet, if_neg (by decide), statsGet]
  · rw [statsGetD, statsGet, if_neg (by decide), statsGet, if_neg (by decide),
      statsGet, if_neg (by decide), statsGet, if_neg (by decide), statsGet]
    rfl

theorem pendingCond_eq_ciStarts (s : String) : pendingCond s = ciStarts "Pending" s := by
  rw [pendingCond, show "Pending%".data = "Pending".data ++ ['%'] from by decide,
    likeMatch_literal "Pending".data (by decide) s.data]
  rfl

theorem likeContains_eq_ciSubstr (needle hay : String) (h : noWild needle.data = true) :
    likeContains needle hay = ciSubstr needle hay := by
  rw [likeContains, likeMatch_substr needle.data h hay.data]
  rfl

/-- C3 as stated is false at a concrete input: the text condition built
for search text `x%y` matches a row whose identifier is `xzzy`, although
`x%y` is not a (case-insensitive) substring of the identifier or of the
short description — the `%` acts as a `LIKE` wildcard. -/
theorem C3_counterexample :
    buildWherePred "x%y" "All" rowXzzy = true
    ∧ ciSubstr "x%y" rowXzzy.number = false
    ∧ ciSubstr "x%y" rowXzzy.shortDescription = false := by decide

/-- C3 (amended): `build_where` produces the conjunction of two
independent optional conditions — a text condition present exactly when
the trimmed search string is non-empty, satisfied exactly when the
identifier or the short description matches the trimmed search text as a
SQLite `LIKE '%…%'` pattern (ASCII-case-insensitive; `%` and `_` in the
text act as wildcards, and this coincides with case-insensitive substring
containment when the text has no wildcard character); and a status
condition present exactly when the status argument is non-empty and
different from "All", satisfied exactly when the ticket's status matches
the status argument as a `LIKE '%…%'` pattern; when neither condition is
present the filter is the always-true predicate, and no input is an
error. -/
theorem C3_amended_filter_shape (search status : String) (r : Row) :
    buildWherePred search status r
      = (((pyStrip search == "") || likeContains (pyStrip search) r.shortDescription
            || likeContains (pyStrip search) r.number)
        && ((status == "") || (status == "All") || likeContains status r.state)) := by
  rcases eq_or_ne (pyStrip search) "" with h1 | h1 <;>
    by_cases h2 : status ≠ "" ∧ status ≠ "All"
  · rw [buildWherePred, build_where, if_neg (by simp [h1]), if_pos h2]
    simp [h1, beq_eq_false_iff_ne.mpr h2.1, beq_eq_false_iff_ne.mpr h2.2]
  · rw [buildWherePred, build_where, if_neg (by simp [h1]), if_neg h2]
    rcases not_and_or.mp h2 with h3 | h3 <;>
      simp [h1, not_not.mp h3]
  · rw [buildWherePred, build_where, if_pos h1, if_pos h2]
    simp [beq_eq_false_iff_ne.mpr h1, beq_eq_false_iff_ne.mpr h2.1,
      beq_eq_false_iff_ne.mpr h2.2, Bool.and_assoc]
  · rw [buildWherePred, build_where, if_pos h1, if_neg h2]
    rcases not_and_or.mp h2 with h3 | h3 <;>
      simp [beq_eq_false_iff_ne.mpr h1, not_not.mp h3]

/-- C6 as stated is false at a concrete input: for search text `a_c` the
text condition matches a row with identifier `abc`, although `a_c` does
not occur literally (even case-insensitively) as a substring of the
identifier or of the short description — the `_` acts as a single-character
wildcard. -/
theorem C6_counterexample :
    buildWherePred "a_c" "All" rowAbc = true
    ∧ litSubstr "a_c".data rowAbc.number.data = false
    ∧ litSubstr "a_c".data rowAbc.shortDescription.data = false
    ∧ ciSubstr "a_c" rowAbc.number = false
    ∧ ciSubstr "a_c" rowAbc.shortDescription = false := by decide

/-- C6 (amended): the search text is matched as a SQLite `LIKE '%…%'`
pattern, in which `%` and `_` act as wildcards; whenever the trimmed
search text contains neither wildcard character, the text condition of
`build_where` matches a ticket exactly when the trimmed text occurs as an
ASCII-case-insensitive substring of the identifier or of the short
description; matching is total, so no string input causes a syntax-error
class of failure. -/
theorem C6_amended_literal_without_wildcards (search : String) (r : Row)
    (h : noWild (pyStrip search).data = true) :
    buildWherePred search "All" r
      = ((pyStrip search == "") || ciSubstr (pyStrip search) r.shortDescription
          || ciSubstr (pyStrip search) r.number) := by
  rcases eq_or_ne (pyStrip search) "" with h1 | h1
  · rw [buildWherePred, build_where, if_neg (by simp [h1]), if_neg (by simp)]
    simp [h1]
  · rw [buildWherePred, build_where, if_pos h1, if_neg (by simp)]
    simp [beq_eq_false_iff_ne.mpr h1, likeContains_eq_ciSubstr _ _ h]

theorem C6_amended_witness :
    noWild (pyStrip "  AP ").data = true
    ∧ buildWherePred "  AP " "All" rowAbc
        = ((pyStrip "  AP " == "") || ciSubstr (pyStrip "  AP ") rowAbc.shortDescription
            || ciSubstr (pyStrip "  AP ") rowAbc.number) :=
  ⟨by decide, C6_amended_literal_without_wildcards "  AP " rowAbc (by decide)⟩

/-- C5 as stated is false at a concrete input: on a table holding one
ticket with status `pending parts`, the `pending` stat of
`search_tickets` is 1, yet no ticket in the filtered set has a status
that begins with "Pending" — SQLite `LIKE 'Pending%'` matches the prefix
case-insensitively. -/
theorem C5_counterexample :
    statsGet (search_tickets [rowPend] "" "All" 1 50).stats "pending" = some 1
    ∧ List.countP (fun r => litStarts "Pending" r.state)
        (List.filter (buildWherePred "" "All") [rowPend]) = 0 := by decide

/-- C5 (amended): each stats count returned by `search_tickets` is the
number of tickets in the entire filtered set (not the returned page) that
additionally satisfy the fixed status-group predicate — `resolved` counts
tickets with status in {Resolved, Closed, Cancelled}, `inProgress` counts
status in {Assigned, Work in Progress}, and `pending` counts tickets
whose status begins with "Pending" compared ASCII-case-insensitively; the
whole stats map is independent of the page and pageSize arguments. -/
theorem C5_amended_stats_counts (t : Table) (search status : String)
    (page : Int) (ps : Nat) :
    (statsGet (search_tickets t search status page ps).stats "resolved"
        = some (List.countP (fun r => resolvedSpec r.state)
            (List.filter (buildWherePred search status) t)))
    ∧ (statsGet (search_tickets t search status page ps).stats "inProgress"
        = some (List.countP (fun r => inProgressSpec r.state)
            (List.filter (buildWherePred search status) t)))
    ∧ (statsGet (search_tickets t search status page ps).stats "pending"
        = some (List.countP (fun r => ciStarts "Pending" r.state)
            (List.filter (buildWherePred search status) t)))
    ∧ (search_tickets t search status page ps).stats
        = (search_tickets t search status 1 50).stats := by
  rw [search_tickets_stats, search_tickets_stats]
  refine ⟨?_, ?_, ?_, rfl⟩
  · rw [statsGet, if_neg (by decide), statsGet, if_pos rfl,
      countP_and_filter t (buildWherePred search status) (fun r => resolvedCond r.state)]
    rfl
  · rw [statsGet, if_neg (by decide), statsGet, if_neg (by decide),
      statsGet, if_pos rfl,
      countP_and_filter t (buildWherePred search status) (fun r => inProgressCond r.state)]
    rfl
  · rw [statsGet, if_neg (by decide), statsGet, if_neg (by decide),
      statsGet, if_neg (by decide), statsGet, if_pos rfl,
      countP_and_filter t (buildWherePred search status) (fun r => pendingCond r.state)]
    simp only [pendingCond_eq_ciStarts]

theorem resolved_inProgress_disjoint (s : String) :
    (resolvedCond s && inProgressCond s) = false := by
  cases hb : resolvedCond s with
  | false => simp
  | true =>
    simp only [resolvedCond, Bool.or_eq_true, beq_iff_eq] at hb
    rcases hb with (h | h) | h <;> subst h <;> decide

theorem resolved_pending_disjoint (s : String) :
    (resolvedCond s && pendingCond s) = false := by
  cases hb : resolvedCond s with
  | false => simp
  | true =>
    simp only [resolvedCond, Bool.or_eq_true, beq_iff_eq] at hb
    rcases hb with (h | h) | h <;> subst h <;> decide

theorem inProgress_pending_disjoint (s : String) :
    (inProgressCond s && pendingCond s) = false := by
  cases hb : inProgressCond s with
  | false => simp
  | true =>
    simp only [inProgressCond, Bool.or_eq_true, beq_iff_eq] at hb
    rcases hb with h | h <;> subst h <;> decide

/-- C8: for every filter and page, each individual stats value of
`search_tickets` is at most `total`, their sum is at most `total`, and
the three status groups are pairwise disjoint. -/
theorem C8_stats_bounded_by_total (t : Table) (search status : String)
    (page : Int) (ps : Nat) :
    (statsGetD (search_tickets t search status page ps).stats "resolved" 0
        ≤ (search_tickets t search status page ps).total)
    ∧ (statsGetD (search_tickets t search status page ps).stats "inProgress" 0
        ≤ (search_tickets t search status page ps).total)
    ∧ (statsGetD (search_tickets t search status page ps).stats "pending" 0
        ≤ (search_tickets t search status page ps).total)
    ∧ (statsGetD (search_tickets t search status page ps).stats "resolved" 0
        + statsGetD (search_tickets t search status page ps).stats "inProgress" 0
        + statsGetD (search_tickets t search status page ps).stats "pending" 0
        ≤ (search_tickets t search status page ps).total)
    ∧ (∀ s : String, (resolvedCond s && inProgressCond s) = false)
    ∧ (∀ s : String, (resolvedCond s && pendingCond s) = false)
    ∧ (∀ s : String, (inProgressCond s && pendingCond s) = false) := by
  have hres : statsGetD (search_tickets t search status page ps).stats "resolved" 0
      = List.countP (fun r => resolvedCond r.state)
          (List.filter (buildWherePred search status) t) := by
    rw [search_tickets_stats, statsGetD, statsGet, if_neg (by decide), statsGet, if_pos rfl,
      countP_and_filter t (buildWherePred search status) (fun r => resolvedCond r.state)]
    rfl
  have hip : statsGetD (search_tickets t search status page ps).stats "inProgress" 0
      = List.countP (fun r => inProgressCond r.state)
          (List.filter (buildWherePred search status) t) := by
    rw [search_tickets_stats, statsGetD, statsGet, if_neg (by decide), statsGet,
      if_neg (by decide), statsGet, if_pos rfl,
      countP_and_filter t (buildWherePred search status) (fun r => inProgressCond r.state)]
    rfl
  have hpd : statsGetD (search_tickets t search status page ps).stats "pending" 0
      = List.countP (fun r => pendingCond r.state)
          (List.filter (buildWherePred search status) t) := by
    rw [search_tickets_stats, statsGetD, statsGet, if_neg (by decide), statsGet,
      if_neg (by decide), statsGet, if_neg (by decide), statsGet, if_pos rfl,
      countP_and_filter t (buildWherePred search status) (fun r => pendingCond r.state)]
    rfl
  have htot : (search_tickets t search status page ps).total
      = (List.filter (buildWherePred search status) t).length := by
    rw [search_tickets_total, List.countP_eq_length_filter]
  refine ⟨?_, ?_, ?_, ?_, resolved_inProgress_disjoint, resolved_pending_disjoint,
    inProgress_pending_disjoint⟩
  · rw [hres, htot]
    exact List.countP_le_length _
  · rw [hip, htot]
    exact List.countP_le_length _
  · rw [hpd, htot]
    exact List.countP_le_length _
  · rw [hres, hip, hpd, htot]
    exact countP_three_le_length _ _ _ _
      (fun r => resolved_inProgress_disjoint r.state)
      (fun r => resolved_pending_disjoint r.state)
      (fun r => inProgress_pending_disjoint r.state)

/-- C7: out-of-range pages are never an error: `search_tickets` with any
page ≤ 0 returns exactly the same bundle as page 1, and with any page
beyond the last available page (`ceil(total / pageSize)`) returns an
empty ticket list while still returning the same total and stats. -/
theorem C7_out_of_range_pages (t : Table) (search status : String) (ps : Nat)
    (pageA pageB : Int)
    (hA : pageA ≤ 0)
    (hps : 1 ≤ ps)
    (hB : ((((search_tickets t search status 1 ps).total + ps - 1) / ps : Nat) : Int)
            < pageB) :
    search_tickets t search status pageA ps = search_tickets t search status 1 ps
    ∧ (search_tickets t search status pageB ps).tickets = []
    ∧ (search_tickets t search status pageB ps).total
        = (search_tickets t search status 1 ps).total
    ∧ (search_tickets t search status pageB ps).stats
        = (search_tickets t search status 1 ps).stats := by
  refine ⟨?_, ?_, rfl, rfl⟩
  · have hA' : (max 1 pageA - 1).toNat = (max 1 (1 : Int) - 1).toNat := by omega
    simp only [search_tickets]
    rw [hA']
  · rw [search_tickets_tickets]
    rw [search_tickets_total] at hB
    have hB' : (List.countP (buildWherePred search status) t + ps - 1) / ps
        ≤ (max 1 pageB - 1).toNat := by omega
    have hlen : (orderByCreatedDesc (List.filter (buildWherePred search status) t)).length
        ≤ (max 1 pageB - 1).toNat * ps := by
      calc (orderByCreatedDesc (List.filter (buildWherePred search status) t)).length
          = List.countP (buildWherePred search status) t := (total_sorted t _).symm
        _ ≤ ((List.countP (buildWherePred search status) t + ps - 1) / ps) * ps :=
            le_ceil_mul ps _ hps
        _ ≤ (max 1 pageB - 1).toNat * ps := Nat.mul_le_mul_right ps hB'
    rw [List.drop_eq_nil_of_le hlen]
    simp

/-- C2: for every filter and every pageSize ≥ 1, concatenating the ticket
lists of `search_tickets` for pages 1 through `ceil(total/pageSize)`
yields exactly the list returned by `export_tickets` for the same filter,
in the same order (hence with no duplicate and no missing ticket relative
to the export); no page contains more than pageSize tickets, and every
page before the last contains exactly pageSize tickets. -/
theorem C2_pagination_partition (t : Table) (search status : String) (ps : Nat)
    (page : Int) (k : Nat)
    (hps : 1 ≤ ps) :
    (((List.range (((search_tickets t search status 1 ps).total + ps - 1) / ps)).map
        fun (i : Nat) => (search_tickets t search status ((i : Int) + 1) ps).tickets).flatten
      = export_tickets t search status)
    ∧ (search_tickets t search status page ps).tickets.length ≤ ps
    ∧ (1 ≤ k → k < ((search_tickets t search status 1 ps).total + ps - 1) / ps →
        (search_tickets t search status (k : Int) ps).tickets.length = ps) := by
  have htot : (search_tickets t search status 1 ps).total
      = (orderByCreatedDesc (List.filter (buildWherePred search status) t)).length := by
    rw [search_tickets_total]
    exact total_sorted t _
  have hoff : ∀ i : Nat, (max 1 ((i : Int) + 1) - 1).toNat = i := by
    intro i
    omega
  have hpage : ∀ i : Nat, (search_tickets t search status ((i : Int) + 1) ps).tickets
      = (((orderByCreatedDesc (List.filter (buildWherePred search status) t)).drop
            (i * ps)).take ps).map toTicket := by
    intro i
    rw [search_tickets_tickets, hoff i]
  refine ⟨?_, ?_, fun hk1 hk2 => ?_⟩
  · rw [htot]
    set L := orderByCreatedDesc (List.filter (buildWherePred search status) t) with hL
    have hlen : L.length ≤ ((L.length + ps - 1) / ps) * ps := le_ceil_mul ps L.length hps
    calc ((List.range ((L.length + ps - 1) / ps)).map
            fun (i : Nat) => (search_tickets t search status ((i : Int) + 1) ps).tickets).flatten
        = ((List.range ((L.length + ps - 1) / ps)).map
            fun i => ((L.drop (i * ps)).take ps).map toTicket).flatten := by
          congr 1
          exact List.map_congr_left fun i _ => hpage i
      _ = (((List.range ((L.length + ps - 1) / ps)).map
            fun i => (L.drop (i * ps)).take ps).flatten).map toTicket := by
          rw [List.map_flatten, List.map_map]
          rfl
      _ = L.map toTicket := by
          rw [flatten_chunks ps ((L.length + ps - 1) / ps) L hlen]
      _ = export_tickets t search status := rfl
  · rw [search_tickets_tickets, List.length_map]
    exact List.length_take_le ps _
  · rw [htot] at hk2
    set L := orderByCreatedDesc (List.filter (buildWherePred search status) t) with hL
    have hkk : (max 1 ((k : Nat) : Int) - 1).toNat = k - 1 := by omega
    rw [search_tickets_tickets, List.length_map, hkk, List.length_take,
      List.length_drop]
    have hmul : k * ps < L.length := mul_lt_of_lt_ceil ps L.length k hps hk2
    have hsplit : (k - 1) * ps + ps = k * ps := by
      cases k with
      | zero => omega
      | succ m => simp [Nat.succ_sub_one, Nat.succ_mul]
    have hle : ps ≤ L.length - (k - 1) * ps := by
      generalize hX : (k - 1) * ps = X at hsplit
      generalize hY : k * ps = Y at hsplit hmul
      omega
    exact Nat.min_eq_left hle

theorem C2_pagination_partition_witness :
    1 ≤ 1
    ∧ ((((List.range (((search_tickets [rowW1, rowW2] "" "All" 1 1).total + 1 - 1) / 1)).map
          fun (i : Nat) =>
            (search_tickets [rowW1, rowW2] "" "All" ((i : Int) + 1) 1).tickets).flatten
        = export_tickets [rowW1, rowW2] "" "All")
      ∧ (search_tickets [rowW1, rowW2] "" "All" 3 1).tickets.length ≤ 1
      ∧ (1 ≤ 1 → 1 < ((search_tickets [rowW1, rowW2] "" "All" 1 1).total + 1 - 1) / 1 →
          (search_tickets [rowW1, rowW2] "" "All" ((1 : Nat) : Int) 1).tickets.length = 1)) :=
  ⟨by decide, C2_pagination_partition [rowW1, rowW2] "" "All" 1 3 1 (by decide)⟩

theorem C7_out_of_range_pages_witness :
    (-2 : Int) ≤ 0
    ∧ 1 ≤ 1
    ∧ ((((search_tickets [rowW1, rowW2] "" "All" 1 1).total + 1 - 1) / 1 : Nat) : Int) < 5
    ∧ (search_tickets [rowW1, rowW2] "" "All" (-2) 1
          = search_tickets [rowW1, rowW2] "" "All" 1 1
      ∧ (search_tickets [rowW1, rowW2] "" "All" 5 1).tickets = []
      ∧ (search_tickets [rowW1, rowW2] "" "All" 5 1).total
          = (search_tickets [rowW1, rowW2] "" "All" 1 1).total
      ∧ (search_tickets [rowW1, rowW2] "" "All" 5 1).stats
          = (search_tickets [rowW1, rowW2] "" "All" 1 1).stats) :=
  ⟨by decide, by decide, by decide,
    C7_out_of_range_pages [rowW1, rowW2] "" "All" 1 (-2) 5 (by decide) (by decide) (by decide)⟩
